import Mathlib

/-!
Verification development for the corporate tax analyser repository
(`src/extract.py`, `src/api.py`).

The Python code is shallowly embedded: Python values flowing through the
extraction pipeline are modelled by the inductive `PyVal` (strings, numbers,
dicts, `None`), Python `float`s are idealised as exact rationals (`Rat`),
and fallible code returns `Option`/`Except`.  Arithmetic inside executable
definitions is written with the kernel-reducible primitives `mkRat`,
`Rat.divInt` and `Rat.floor` (plus `Int`/`Nat` arithmetic); bridge lemmas
relate these to the ordinary field operations on `Rat`.
-/

set_option maxRecDepth 400000

/-- Model of a Python value as it appears in the JSON payloads of
`extract.py`: a string, a number (idealised rational), a dict, or `None`. -/
inductive PyVal where
  | str : String → PyVal
  | num : Rat → PyVal
  | dict : List (String × PyVal) → PyVal
  | pynone : PyVal
deriving Repr

/-- A Python dict with string keys, in insertion order. -/
abbrev PyDict := List (String × PyVal)

/-- `d.get(k)` returning `none` when the key is absent. -/
def lookupKey (d : PyDict) (k : String) : Option PyVal :=
  (d.find? (fun p => p.1 == k)).map (fun p => p.2)

/-- `d.get(k, default)`. -/
def getDefault (d : PyDict) (k : String) (v : PyVal) : PyVal :=
  (lookupKey d k).getD v

/-- `d[k] = v` on a Python dict: an existing key keeps its position,
a new key is appended (CPython insertion-order semantics). -/
def setKey : PyDict → String → PyVal → PyDict
  | [], k, v => [(k, v)]
  | (k₁, v₁) :: rest, k, v =>
      if k₁ = k then (k, v) :: rest else (k₁, v₁) :: setKey rest k v

/-- Python truthiness: `""`, `0`, `{}` and `None` are falsy. -/
def isFalsy : PyVal → Bool
  | .str s => s = ""
  | .num q => q = 0
  | .dict d => d.isEmpty
  | .pynone => true

/-- `10 ^ n` on `Nat`, by structural recursion (kernel-reducible). -/
def pow10 : Nat → Nat
  | 0 => 1
  | n + 1 => 10 * pow10 n

/-- Value of a list of decimal digit characters. -/
def digitsToNat (cs : List Char) : Nat :=
  cs.foldl (fun a c => a * 10 + (c.toNat - 48)) 0

/-- Parse the mantissa part of a Python float literal (digits, optionally
with one decimal point, consuming the whole input): returns the digits'
value together with the number of fractional digits. -/
def parseMantissa (cs : List Char) : Option (Nat × Nat) :=
  let ip := cs.takeWhile Char.isDigit
  let rest := cs.dropWhile Char.isDigit
  match rest with
  | [] => if ip.isEmpty then none else some (digitsToNat ip, 0)
  | '.' :: rest2 =>
      let fp := rest2.takeWhile Char.isDigit
      let rest3 := rest2.dropWhile Char.isDigit
      if (ip.isEmpty && fp.isEmpty) || !rest3.isEmpty then none
      else some (digitsToNat (ip ++ fp), fp.length)
  | _ => none

/-- Parse the exponent written after `e`/`E` in a float literal. -/
def parseExpPart : List Char → Option Int
  | '+' :: ds =>
      if !ds.isEmpty && ds.all Char.isDigit then some (digitsToNat ds) else none
  | '-' :: ds =>
      if !ds.isEmpty && ds.all Char.isDigit then some (-(digitsToNat ds : Int)) else none
  | ds =>
      if !ds.isEmpty && ds.all Char.isDigit then some (digitsToNat ds) else none

/-- The rational `m / 10^fracLen * 10^e`, built with `Rat.divInt` so that it
evaluates inside the kernel. -/
def applyExp (m : Nat) (fracLen : Nat) (e : Int) : Rat :=
  match e with
  | .ofNat k => Rat.divInt ((m : Int) * (pow10 k : Int)) (pow10 fracLen : Int)
  | .negSucc k => Rat.divInt (m : Int) ((pow10 fracLen : Int) * (pow10 (k + 1) : Int))

/-- Character list form of an unsigned Python float literal
(`digits[.digits][e[±]digits]`). -/
def pyFloatChars (cs : List Char) : Option Rat :=
  let mant := cs.takeWhile (fun c => !(c = 'e' || c = 'E'))
  let rest := cs.dropWhile (fun c => !(c = 'e' || c = 'E'))
  match rest with
  | [] => (parseMantissa mant).map (fun p => applyExp p.1 p.2 0)
  | _ :: expPart =>
      match parseMantissa mant, parseExpPart expPart with
      | some p, some e => some (applyExp p.1 p.2 e)
      | _, _ => none

/-- Optional leading sign of a float literal. -/
def pySignedFloat (cs : List Char) : Option Rat :=
  match cs with
  | '+' :: rest => pyFloatChars rest
  | '-' :: rest => (pyFloatChars rest).map (fun q => -q)
  | _ => pyFloatChars cs

/-- ASCII whitespace as stripped by Python's `str.strip` / `float`. -/
def isPySpace (c : Char) : Bool :=
  c = ' ' || c = '\t' || c = '\n' || c = '\r' || c = '\x0b' || c = '\x0c'

/-- Strip leading and trailing whitespace from a character list. -/
def trimChars (cs : List Char) : List Char :=
  ((cs.dropWhile isPySpace).reverse.dropWhile isPySpace).reverse

/-- Python's `float(s)` on a string, restricted to the decimal forms this
repository feeds it (surrounding whitespace, optional sign, digits with an
optional point and optional exponent; `inf`/`nan`/underscores are not
modelled).  `none` models `float` raising `ValueError`. -/
def pyParseFloat (s : String) : Option Rat :=
  match trimChars s.data with
  | [] => none
  | t => pySignedFloat t

/-- Python's `float(x)` on a pipeline value: numbers pass through, strings
are parsed, anything else (`None`, dicts) raises (`none`). -/
def pyFloat : PyVal → Option Rat
  | .num q => some q
  | .str s => pyParseFloat s
  | _ => none

-- ─── clean_numeric_value (src/extract.py lines 21-28) ─────────────────────

/-- The characters removed by `re.sub(r'[€$,%\s]', '', ...)`: currency
symbols, comma, percent and (ASCII) whitespace. -/
def isStrippedChar (c : Char) : Bool :=
  c = '€' || c = '$' || c = ',' || c = '%' ||
  c = ' ' || c = '\t' || c = '\n' || c = '\r' || c = '\x0b' || c = '\x0c'

/-- Greedy match of `\d+\.?\d*` at the head of the input, returning the
matched characters. -/
def matchDigits (cs : List Char) : Option (List Char) :=
  let ds := cs.takeWhile Char.isDigit
  if ds.isEmpty then none
  else
    match cs.dropWhile Char.isDigit with
    | '.' :: rest2 => some (ds ++ '.' :: rest2.takeWhile Char.isDigit)
    | _ => some ds

/-- Match of `-?\d+\.?\d*` anchored at the head of the input (the optional
sign is taken when digits follow it, as the regex engine would). -/
def matchSignedDigits (cs : List Char) : Option (List Char) :=
  match cs with
  | [] => none
  | c :: rest =>
      if c = '-' then
        match matchDigits rest with
        | some m => some ('-' :: m)
        | none => none
      else matchDigits (c :: rest)

/-- `re.search(r'-?\d+\.?\d*', ...)`: the leftmost match of the pattern. -/
def searchNum : List Char → Option (List Char)
  | [] => none
  | c :: rest =>
      match matchSignedDigits (c :: rest) with
      | some m => some m
      | none => searchNum rest

/-- Lines 25-26 of `src/extract.py`: a value that starts with `(` and ends
with `)` becomes `-` followed by the characters between the parentheses
(accounting-style negative). -/
def parenNegate (cs : List Char) : List Char :=
  match cs with
  | [] => []
  | c :: rest =>
      if c = '(' ∧ rest.getLast? = some ')' then '-' :: rest.dropLast
      else c :: rest

/-- `clean_numeric_value` from `src/extract.py` lines 21-28.  The input is
`Option String` so that `None` (falsy) is covered; a non-string argument is
outside the annotated contract.  Falsy or `"0"` input yields `0`; otherwise
currency/percent/whitespace characters are stripped, a fully parenthesised
value is turned into a negated one, and the first `-?\d+\.?\d*` substring is
parsed (`0` when none exists).  The final `float` cannot fail on a string
matched by that pattern, so the `getD 0` default is never exercised. -/
def clean_numeric_value (value : Option String) : Rat :=
  match value with
  | Option.none => 0
  | some s =>
      if s = "" || s = "0" then 0
      else
        let cleaned := parenNegate (s.data.filter (fun c => !isStrippedChar c))
        match searchNum cleaned with
        | some m => (pySignedFloat m).getD 0
        | Option.none => 0

-- ─── calculate_netherlands_tax (src/extract.py lines 30-35) ───────────────

/-- `calculate_netherlands_tax` from `src/extract.py` lines 30-35, with the
float arithmetic idealised as exact rational arithmetic. -/
def calculate_netherlands_tax (taxable_income : Rat) : Rat :=
  if taxable_income ≤ 0 then 0
  else if taxable_income ≤ 200000 then taxable_income * (19 / 100)
  else 200000 * (19 / 100) + (taxable_income - 200000) * (258 / 1000)

-- sanity checks on the embedding
example : clean_numeric_value (some "(1,234)") = -1234 := by decide
example : clean_numeric_value (some "n/a") = 0 := by decide
example : clean_numeric_value (some "€1,234.50") = Rat.divInt 123450 100 := by decide
example : Rat.divInt 123450 100 = 1234.5 := by
  rw [Rat.divInt_eq_div]
  norm_num
example : calculate_netherlands_tax 300000 = 63800 := by
  norm_num [calculate_netherlands_tax]

-- ─── fill_quarters_from_overall (src/extract.py lines 118-142) ────────────

/-- The six overall financial fields read by the backfill. -/
def overallKeys : List String :=
  ["total_revenue", "total_expenses", "depreciation", "deductions",
   "net_taxable_income", "final_tax_owed"]

/-- `float(data.get(k, 0) or 0)`: a missing or falsy value becomes `0`,
anything else goes through `float` (which may raise, i.e. `none`). -/
def overallField (data : PyDict) (k : String) : Option Rat :=
  let v := getDefault data k (.num 0)
  if isFalsy v then some 0 else pyFloat v

/-- The six float conversions of `fill_quarters_from_overall` run inside a
single `try`: if any one of them raises, the `except` clause resets all six
values to `0`. -/
def overallSix (data : PyDict) : Rat × Rat × Rat × Rat × Rat × Rat :=
  if overallKeys.all (fun k => (overallField data k).isSome) then
    ((overallField data "total_revenue").getD 0,
     (overallField data "total_expenses").getD 0,
     (overallField data "depreciation").getD 0,
     (overallField data "deductions").getD 0,
     (overallField data "net_taxable_income").getD 0,
     (overallField data "final_tax_owed").getD 0)
  else (0, 0, 0, 0, 0, 0)

/-- `str(int(v // 4)) if v else ""`: the overall value floor-divided by four
and rendered as a decimal string, or the empty string when the value is
falsy (zero).  `Rat.divInt v.num (4 * v.den)` is `v / 4` in kernel-reducible
form (see `divInt_num_four_den`). -/
def divByFourStr (v : Rat) : String :=
  if v = 0 then "" else toString (Rat.floor (Rat.divInt v.num (4 * (v.den : Int))))

/-- The quarter dict written by the backfill loop for Q1..Q4. -/
def backfillQuarter (r e d de n t : Rat) : PyVal :=
  .dict [("revenue", .str (divByFourStr r)),
         ("expenses", .str (divByFourStr e)),
         ("depreciation", .str (divByFourStr d)),
         ("deductions", .str (divByFourStr de)),
         ("net_taxable_income", .str (divByFourStr n)),
         ("final_tax_owed", .str (divByFourStr t))]

/-- `v not in ("", "0", 0)` for a quarter's value: only the empty string,
the string `"0"` and the number `0` compare equal to a tuple member
(Python `==`); dicts and `None` never do. -/
def notEmptyZero (v : PyVal) : Bool :=
  match v with
  | .str s => !(s = "" || s = "0")
  | .num q => q ≠ 0
  | _ => true

/-- `any(q and any(v not in ("", "0", 0) for v in q.values()) for q in
quarters.values())`, with Python's short-circuiting: a falsy `q` is skipped
without touching `q.values()`; a truthy non-dict `q` raises
`AttributeError` (`none`); otherwise the quarter counts when some value is
outside `("", "0", 0)`. -/
def anyQuarterPopulated : List (String × PyVal) → Option Bool
  | [] => some false
  | (_, q) :: rest =>
      if isFalsy q then anyQuarterPopulated rest
      else
        match q with
        | .dict entries =>
            if entries.any (fun p => notEmptyZero p.2) then some true
            else anyQuarterPopulated rest
        | _ => none

/-- `fill_quarters_from_overall` from `src/extract.py` lines 118-142.
`none` models the function raising (a truthy non-dict where a dict of
quarters is expected).  When no quarter holds a value outside
`("", "0", 0)`, Q1..Q4 are overwritten with the overall fields divided by
four; otherwise the input is returned unchanged. -/
def fill_quarters_from_overall (data : PyDict) : Option PyDict :=
  match getDefault data "quarters" (.dict []) with
  | .dict quarters =>
      match anyQuarterPopulated quarters with
      | Option.none => none
      | some true => some data
      | some false =>
          match overallSix data with
          | (r, e, d, de, n, t) =>
            let q := backfillQuarter r e d de n t
            let quarters :=
              setKey (setKey (setKey (setKey quarters "Q1" q) "Q2" q) "Q3" q) "Q4" q
            some (setKey data "quarters" (.dict quarters))
  | _ => none

-- sanity checks on the embedding
example :
    fill_quarters_from_overall [("total_revenue", .str "4000")] =
      some [("total_revenue", .str "4000"),
            ("quarters", .dict
              [("Q1", backfillQuarter 4000 0 0 0 0 0),
               ("Q2", backfillQuarter 4000 0 0 0 0 0),
               ("Q3", backfillQuarter 4000 0 0 0 0 0),
               ("Q4", backfillQuarter 4000 0 0 0 0 0)])] := by rfl
example : divByFourStr 4000 = "1000" := by rfl
example : divByFourStr 0 = "" := by rfl
example :
    fill_quarters_from_overall
      [("quarters", .dict [("Q1", .dict [("revenue", .str "500")])])] =
    some [("quarters", .dict [("Q1", .dict [("revenue", .str "500")])])] := by rfl

-- ─── extract_financial_data_with_ai (src/extract.py lines 37-116) ─────────

/-- A FastAPI `HTTPException`, reduced to the data the handlers set. -/
structure HTTPError where
  status_code : Nat
  detail : String
deriving DecidableEq, Repr

/-- `str()` of a FastAPI/Starlette `HTTPException`:
`"{status_code}: {detail}"`. -/
def strHTTP (e : HTTPError) : String :=
  toString e.status_code ++ ": " ++ e.detail

/-- The outcome of the OpenAI chat-completion call, which is an external
collaborator: either the completion text, or one of the exception types the
code distinguishes. -/
inductive ModelOutcome where
  | success (content : String)
  | authError (msg : String)
  | apiError (msg : String)
  | rateLimitError (msg : String)
  | otherError (msg : String)
deriving DecidableEq, Repr

/-- Modelled from the spec: `json.loads` raising `JSONDecodeError` is an
external library failure; the exact exception text is a library detail and
only its presence matters to the control flow. -/
def jsonDecodeErrorMsg : String := "Expecting value"

/-- Modelled from the spec: the `AttributeError` text raised when
`fill_quarters_from_overall` meets a non-dict where a dict is expected. -/
def attributeErrorMsg : String := "has no attribute values"

/-- Body of the fence-removing `re.sub`, structurally recursive on a fuel
argument (initially the input length, which the scan never exhausts since
every step consumes at least one character). -/
def stripFenceAux : Nat → List Char → List Char
  | 0, cs => cs
  | _ + 1, [] => []
  | fuel + 1, c :: rest =>
      if ("```json\n".data).isPrefixOf (c :: rest) then stripFenceAux fuel (rest.drop 7)
      else if ("```json".data).isPrefixOf (c :: rest) then stripFenceAux fuel (rest.drop 6)
      else if ("```".data).isPrefixOf (c :: rest) then stripFenceAux fuel (rest.drop 2)
      else c :: stripFenceAux fuel rest

/-- The fence-removing substitution: scan left to right, removing each
leftmost occurrence of a fence token, trying the regex's alternatives
(fenced word with optional newline first, bare fence second) in order. -/
def stripFenceSubs (cs : List Char) : List Char :=
  stripFenceAux cs.length cs

/-- Lines 96-97 of `src/extract.py`: if the (already stripped) response
starts with a Markdown fence, remove the fence tokens and strip again. -/
def stripCodeFence (result : String) : String :=
  if ("```".data).isPrefixOf result.data
  then String.mk (trimChars (stripFenceSubs result.data))
  else result

/-- `extract_financial_data_with_ai` from `src/extract.py` lines 37-116.

The OpenAI call is the injected `outcome`; `json.loads` is the injected
`parseJson` (`none` = `JSONDecodeError`).  On success the response is
stripped, de-fenced, parsed and repaired with `fill_quarters_from_overall`;
every failure raises an `HTTPException(500, ...)` in the inner handlers,
which the outer `except Exception` clause of lines 114-116 catches again
(FastAPI's `HTTPException` is an `Exception`) and re-wraps as
`"Error in AI extraction: {str(e)}"`.  The `text`/`tables_data` arguments
only feed the prompt, which the injected outcome already accounts for. -/
def extract_financial_data_with_ai (parseJson : String → Option PyDict)
    (text tables_data : String) (outcome : ModelOutcome) :
    Except HTTPError PyDict :=
  let inner : Except HTTPError PyDict :=
    match outcome with
    | .success content =>
        let result := String.mk (trimChars content.data)
        let result := stripCodeFence result
        match parseJson result with
        | some data =>
            match fill_quarters_from_overall data with
            | some d => .ok d
            | none => .error ⟨500, "Unexpected OpenAI Error: " ++ attributeErrorMsg⟩
        | none => .error ⟨500, "Unexpected OpenAI Error: " ++ jsonDecodeErrorMsg⟩
    | .authError m => .error ⟨500, "OpenAI API Authentication Error: " ++ m⟩
    | .apiError m => .error ⟨500, "OpenAI API Error: " ++ m⟩
    | .rateLimitError m => .error ⟨500, "OpenAI Rate Limit Error: " ++ m⟩
    | .otherError m => .error ⟨500, "Unexpected OpenAI Error: " ++ m⟩
  match inner with
  | .ok d => .ok d
  | .error e => .error ⟨500, "Error in AI extraction: " ++ strHTTP e⟩

-- sanity checks on the embedding
example :
    extract_financial_data_with_ai (fun _ => none) "" "" (.authError "bad key") =
      .error ⟨500, "Error in AI extraction: 500: OpenAI API Authentication Error: bad key"⟩ := by
  rfl
example :
    extract_financial_data_with_ai (fun _ => none) "" "" (.success "not json") =
      .error ⟨500, "Error in AI extraction: 500: Unexpected OpenAI Error: Expecting value"⟩ := by
  rfl
example : stripCodeFence "```json\n[1]\n```" = "[1]" := by rfl

-- ─── CSV branch of the /extract endpoint (src/api.py lines 80-116) ────────

/-- One cell of the headerless dataframe `pd.read_csv` produces: `none` is a
null (`NaN`) cell, `some s` a cell whose `str()` rendering is `s`. -/
abbrev Cell := Option String

/-- Join character lists with a separator (`sep.join` in Python). -/
def joinWith (sep : List Char) : List (List Char) → List Char
  | [] => []
  | [x] => x
  | x :: y :: t => x ++ sep ++ joinWith sep (y :: t)

/-- `" ".join([str(x) for x in row if pd.notnull(x)])`. -/
def rowStrChars (row : List Cell) : List Char :=
  joinWith [' '] (row.filterMap (fun c => c.map (fun s => s.data)))

/-- The fixed keyword list of `src/api.py` lines 88-91. -/
def csvKeywords : List String :=
  ["revenue", "sales", "expenses", "depreciation", "deductions",
   "net income", "profit", "loss", "tax"]

/-- Substring test: does `pat` occur contiguously in the second list? -/
def containsSub (pat : List Char) : List Char → Bool
  | [] => pat.isEmpty
  | c :: rest => pat.isPrefixOf (c :: rest) || containsSub pat rest

/-- The keyword filter applied to one row: some keyword occurs in the
lower-cased joined row string. -/
def rowMatches (row : List Cell) : Bool :=
  csvKeywords.any (fun kw => containsSub kw.data ((rowStrChars row).map Char.toLower))

/-- `full_text = "\n".join(key_rows)` for the CSV path. -/
def csvProseChars (rows : List (List Cell)) : List Char :=
  joinWith ['\n'] ((rows.filter rowMatches).map rowStrChars)

/-- String form of the prose text of the CSV path. -/
def csvProse (rows : List (List Cell)) : String :=
  String.mk (csvProseChars rows)

/-- Widest row, for the synthetic `0 1 2 ...` header labels of a
headerless dataframe. -/
def maxCols (rows : List (List Cell)) : Nat :=
  rows.foldr (fun r a => max r.length a) 0

/-- The column-label header line of `df.to_string(index=False)` for a
headerless dataframe: the column indices. -/
def headerChars (rows : List (List Cell)) : List Char :=
  joinWith [' '] ((List.range (maxCols rows)).map (fun i => (toString i).data))

/-- One data line of the rendering: cells separated by spaces, nulls shown
as `NaN`. -/
def renderRowChars (row : List Cell) : List Char :=
  joinWith [' '] (row.map (fun c => match c with | some s => s.data | Option.none => "NaN".data))

/-- `tables_text = df.to_string(index=False)`, modelled as the header line
followed by one line per row (pandas column alignment/padding is a
presentation detail and is not reproduced; what matters to the pipeline is
which rows appear and whether the text is empty). -/
def csvTablesChars (rows : List (List Cell)) : List Char :=
  joinWith ['\n'] (headerChars rows :: rows.map renderRowChars)

/-- String form of the tables text of the CSV path. -/
def csvTables (rows : List (List Cell)) : String :=
  String.mk (csvTablesChars rows)

/-- The CSV branch of the `/extract` endpoint, `src/api.py` lines 80-116,
entered after `pd.read_csv` has successfully produced the headerless
`rows` (a parse failure takes the 400 "Error processing CSV" branch, which
is upstream of everything modelled here).  If both text blobs are empty the
endpoint raises 400 "No readable content found in the file"; otherwise it
calls `extract_financial_data_with_ai`, whose `HTTPException` is re-raised
unchanged by the `except HTTPException` handlers. -/
def extract_endpoint_csv (rows : List (List Cell))
    (parseJson : String → Option PyDict) (outcome : ModelOutcome) :
    Except HTTPError PyDict :=
  let full_text := csvProse rows
  let tables_text := csvTables rows
  if full_text = "" ∧ tables_text = "" then
    .error ⟨400, "No readable content found in the file"⟩
  else extract_financial_data_with_ai parseJson full_text tables_text outcome

-- ─── format_currency / create_results_table (src/extract.py 144-157) ──────

/-- Round to the nearest integer, ties to even: the rounding used by
Python's `format(x, ',.0f')` (idealised on exact rationals). -/
def roundHalfEven (q : Rat) : Int :=
  let f := q.floor
  let r := q.num - f * (q.den : Int)
  if 2 * r < (q.den : Int) then f
  else if 2 * r > (q.den : Int) then f + 1
  else if f % 2 = 0 then f else f + 1

/-- Insert a comma after every group of three digits, working on the
reversed digit list. -/
def groupRev : List Char → List Char
  | a :: b :: c :: d :: rest => a :: b :: c :: ',' :: groupRev (d :: rest)
  | ds => ds

/-- Thousands-separated decimal rendering of a natural number. -/
def commaSep (n : Nat) : String :=
  String.mk ((groupRev (toString n).data.reverse).reverse)

/-- `format_currency` from `src/extract.py` lines 144-149: `float(amount)`
(any failure gives `"€0"`), then `f"-€{abs(num):,.0f}"` for negatives and
`f"€{num:,.0f}"` otherwise. -/
def format_currency (amount : PyVal) : String :=
  match pyFloat amount with
  | Option.none => "€0"
  | some q =>
      if q < 0 then "-€" ++ commaSep (roundHalfEven (-q)).toNat
      else "€" ++ commaSep (roundHalfEven q).toNat

/-- `k.replace("_", " ").title()`: underscores become spaces, the first
letter of each word is upper-cased and the rest lower-cased. -/
def titleAux : List Char → Bool → List Char
  | [], _ => []
  | c :: rest, atStart =>
      (if atStart then c.toUpper else c.toLower) :: titleAux rest (!c.isAlpha)

/-- String form of `k.replace("_", " ").title()`. -/
def titleCaseKey (k : String) : String :=
  String.mk (titleAux (k.data.map (fun c => if c = '_' then ' ' else c)) true)

/-- `create_results_table` from `src/extract.py` lines 151-157, with the
`pd.DataFrame` constructor abstracted to its list of `[Field, Value]` rows.
Python's list comprehension reads `financial_data[k]` for the six fixed
keys and raises `KeyError` at the first missing one (`none` here; the
result is the same whichever key is checked first), while company name and
country use `.get` with a `"Not found"` default.  Under the all-present
guard the `.getD (.str "")` default is never read. -/
def create_results_table (financial_data : PyDict) : Option (List (String × PyVal)) :=
  if overallKeys.all (fun k => (lookupKey financial_data k).isSome) then
    some (("Company Name", getDefault financial_data "company_name" (.str "Not found")) ::
          ("Country", getDefault financial_data "country" (.str "Not found")) ::
          overallKeys.map (fun k =>
            (titleCaseKey k, .str (format_currency ((lookupKey financial_data k).getD (.str ""))))))
  else none

-- sanity checks on the embedding
example :
    csvProse [[some "Name", some "Value"], [some "Revenue", some "1000"], [some "Unrelated", some "5"]] =
      "Revenue 1000" := by rfl
example :
    extract_endpoint_csv [[some "Name", some "Value"]] (fun _ => none) (.authError "k") =
      .error ⟨500, "Error in AI extraction: 500: OpenAI API Authentication Error: k"⟩ := by rfl
example : format_currency (.str "n/a") = "€0" := by rfl
example : format_currency (.str "-1234567.6") = "-€1,234,568" := by rfl
example : titleCaseKey "total_revenue" = "Total Revenue" := by rfl
example :
    create_results_table [("total_revenue", .str "10"), ("total_expenses", .str "1"),
      ("depreciation", .str "0"), ("deductions", .str ""), ("net_taxable_income", .str "9"),
      ("final_tax_owed", .str "1.71")] =
    some [("Company Name", .str "Not found"), ("Country", .str "Not found"),
          ("Total Revenue", .str "€10"), ("Total Expenses", .str "€1"),
          ("Depreciation", .str "€0"), ("Deductions", .str "€0"),
          ("Net Taxable Income", .str "€9"), ("Final Tax Owed", .str "€2")] := by rfl

-- ─── Helper lemmas ────────────────────────────────────────────────────────

theorem lookup_setKey_self (d : PyDict) (k : String) (v : PyVal) :
    lookupKey (setKey d k v) k = some v := by
  induction d with
  | nil => simp [setKey, lookupKey]
  | cons p rest ih =>
      obtain ⟨k₁, v₁⟩ := p
      by_cases h : k₁ = k
      · simp [setKey, h, lookupKey]
      · simp only [setKey, if_neg h]
        simpa [lookupKey, List.find?_cons, beq_iff_eq, h] using ih

theorem lookup_setKey_ne (d : PyDict) (k k' : String) (v : PyVal) (h : k' ≠ k) :
    lookupKey (setKey d k v) k' = lookupKey d k' := by
  have hkk : (k == k') = false := beq_eq_false_iff_ne.mpr (fun he => h he.symm)
  induction d with
  | nil => simp [setKey, lookupKey, List.find?, hkk]
  | cons p rest ih =>
      obtain ⟨k₁, v₁⟩ := p
      by_cases h₁ : k₁ = k
      · subst h₁
        simp [setKey, lookupKey, List.find?_cons, hkk]
      · simp only [setKey, if_neg h₁]
        by_cases h₂ : k₁ = k'
        · subst h₂
          simp [lookupKey, List.find?_cons]
        · have hk₂ : (k₁ == k') = false := beq_eq_false_iff_ne.mpr h₂
          simpa [lookupKey, List.find?_cons, hk₂] using ih

theorem joinWith_cons_cons (sep : List Char) (a b : List Char) (t : List (List Char)) :
    joinWith sep (a :: b :: t) = a ++ sep ++ joinWith sep (b :: t) := rfl

theorem joinWith_two_ne_nil (sep : List Char) (hs : sep ≠ []) (a b : List Char)
    (t : List (List Char)) : joinWith sep (a :: b :: t) ≠ [] := by
  simp only [joinWith_cons_cons, ne_eq, List.append_assoc, List.append_eq_nil]
  intro hcontra
  exact hs hcontra.2.1

theorem containsSub_of_isPrefixOf (pat l : List Char) (h : pat.isPrefixOf l = true) :
    containsSub pat l = true := by
  cases l with
  | nil =>
      have : pat = [] := List.prefix_nil.mp (List.isPrefixOf_iff_prefix.mp h)
      simp [containsSub, this]
  | cons c rest => simp [containsSub, h]

theorem containsSub_append_right (pat xs ys : List Char) (h : containsSub pat ys = true) :
    containsSub pat (xs ++ ys) = true := by
  induction xs with
  | nil => simpa
  | cons c rest ih => simp [containsSub, ih]

theorem containsSub_joinWith (sep : List Char) (x : List Char) (l : List (List Char))
    (hx : x ∈ l) : containsSub x (joinWith sep l) = true := by
  induction l with
  | nil => cases hx
  | cons a t ih =>
      cases t with
      | nil =>
          have : x = a := by simpa using hx
          subst this
          exact containsSub_of_isPrefixOf x x (by simp [List.isPrefixOf_iff_prefix])
      | cons b t2 =>
          rcases List.mem_cons.mp hx with hxa | hxt
          · subst hxa
            rw [joinWith_cons_cons, List.append_assoc]
            exact containsSub_of_isPrefixOf _ _
              (by simp [List.isPrefixOf_iff_prefix, List.prefix_append])
          · rw [joinWith_cons_cons, List.append_assoc]
            exact containsSub_append_right _ _ _
              (containsSub_append_right _ _ _ (ih hxt))

theorem stringMk_ne_empty (cs : List Char) (h : cs ≠ []) : String.mk cs ≠ "" := by
  intro he
  exact h (by simpa using congrArg String.data he)

theorem csvTables_ne_empty (rows : List (List Cell)) (h : rows ≠ []) :
    csvTables rows ≠ "" := by
  obtain ⟨r, rest, rfl⟩ : ∃ r rest, rows = r :: rest := by
    cases rows with
    | nil => exact absurd rfl h
    | cons r rest => exact ⟨r, rest, rfl⟩
  exact stringMk_ne_empty _ (joinWith_two_ne_nil _ (by simp) _ _ _)

theorem ratFloor_eq_floor (q : Rat) : q.floor = ⌊q⌋ := by
  rw [Rat.floor_def]
  unfold Rat.floor
  split
  · rename_i hden
    rw [hden]
    simp
  · rfl

theorem divInt_num_four_den (v : Rat) :
    Rat.divInt v.num (4 * (v.den : Int)) = v / 4 := by
  rw [Rat.divInt_eq_div]
  push_cast
  rw [mul_comm, ← div_div, Rat.num_div_den]

theorem divByFourStr_eq (v : Rat) :
    divByFourStr v = if v = 0 then "" else toString (⌊v / 4⌋ : Int) := by
  unfold divByFourStr
  rw [ratFloor_eq_floor, divInt_num_four_den]

/-- The quarter field keys of the canonical schema. -/
def quarterKeys : List String :=
  ["revenue", "expenses", "depreciation", "deductions",
   "net_taxable_income", "final_tax_owed"]

theorem fill_backfill (data : PyDict) (qs : List (String × PyVal))
    (h₁ : getDefault data "quarters" (.dict []) = .dict qs)
    (h₂ : anyQuarterPopulated qs = some false)
    (r e d de n t : Rat) (hsix : overallSix data = (r, e, d, de, n, t)) :
    fill_quarters_from_overall data =
      some (setKey data "quarters" (.dict
        (setKey (setKey (setKey (setKey qs "Q1" (backfillQuarter r e d de n t)) "Q2"
          (backfillQuarter r e d de n t)) "Q3" (backfillQuarter r e d de n t)) "Q4"
          (backfillQuarter r e d de n t)))) := by
  unfold fill_quarters_from_overall
  rw [h₁]
  simp only [h₂, hsix]

theorem fill_passthrough (data : PyDict) (qs : List (String × PyVal))
    (h₁ : getDefault data "quarters" (.dict []) = .dict qs)
    (h₂ : anyQuarterPopulated qs = some true) :
    fill_quarters_from_overall data = some data := by
  unfold fill_quarters_from_overall
  rw [h₁]
  simp only [h₂]

theorem lookup_setKey_quarter_chain (qs : List (String × PyVal)) (q : PyVal) :
    ∀ qk ∈ ["Q1", "Q2", "Q3", "Q4"],
      lookupKey (setKey (setKey (setKey (setKey qs "Q1" q) "Q2" q) "Q3" q) "Q4" q) qk =
        some q := by
  intro qk hqk
  fin_cases hqk
  · rw [lookup_setKey_ne _ _ _ _ (by decide), lookup_setKey_ne _ _ _ _ (by decide),
        lookup_setKey_ne _ _ _ _ (by decide), lookup_setKey_self]
  · rw [lookup_setKey_ne _ _ _ _ (by decide), lookup_setKey_ne _ _ _ _ (by decide),
        lookup_setKey_self]
  · rw [lookup_setKey_ne _ _ _ _ (by decide), lookup_setKey_self]
  · rw [lookup_setKey_self]

theorem overallSix_of_fail (data : PyDict) (k : String) (hk : k ∈ overallKeys)
    (hfail : overallField data k = none) :
    overallSix data = (0, 0, 0, 0, 0, 0) := by
  unfold overallSix
  rw [if_neg]
  intro hall
  have := List.all_eq_true.mp hall k hk
  rw [hfail] at this
  simp at this

theorem matchDigits_none (cs : List Char) (h : ∀ c ∈ cs, c.isDigit = false) :
    matchDigits cs = none := by
  cases cs with
  | nil => rfl
  | cons c rest =>
      have hc : c.isDigit = false := h c (List.mem_cons_self c rest)
      simp [matchDigits, List.takeWhile_cons, hc]

theorem matchSignedDigits_none (cs : List Char) (h : ∀ c ∈ cs, c.isDigit = false) :
    matchSignedDigits cs = none := by
  cases cs with
  | nil => rfl
  | cons c rest =>
      by_cases hc : c = '-'
      · subst hc
        have hrest : matchDigits rest = none :=
          matchDigits_none rest (fun x hx => h x (List.mem_cons_of_mem _ hx))
        simp [matchSignedDigits, hrest]
      · have hall : matchDigits (c :: rest) = none := matchDigits_none _ h
        simp [matchSignedDigits, hc, hall]

theorem searchNum_none (cs : List Char) (h : ∀ c ∈ cs, c.isDigit = false) :
    searchNum cs = none := by
  induction cs with
  | nil => rfl
  | cons c rest ih =>
      have hms := matchSignedDigits_none (c :: rest) h
      have hrest := ih (fun x hx => h x (List.mem_cons_of_mem _ hx))
      simp [searchNum, hms, hrest]

theorem parenNegate_no_digit (l : List Char) (h : ∀ c ∈ l, c.isDigit = false) :
    ∀ c ∈ parenNegate l, c.isDigit = false := by
  cases l with
  | nil => intro c hc; simp [parenNegate] at hc
  | cons a rest =>
      intro c hc
      simp only [parenNegate] at hc
      by_cases hcond : a = '(' ∧ rest.getLast? = some ')'
      · rw [if_pos hcond] at hc
        rcases List.mem_cons.mp hc with rfl | hc2
        · rfl
        · exact h c (List.mem_cons_of_mem _ ((List.dropLast_sublist rest).subset hc2))
      · rw [if_neg hcond] at hc
        exact h c hc

theorem clean_no_digit (s : String) (h : ∀ c ∈ s.data, c.isDigit = false) :
    clean_numeric_value (some s) = 0 := by
  have hfilter : ∀ c ∈ s.data.filter (fun c => !isStrippedChar c), c.isDigit = false :=
    fun c hc => h c (List.mem_filter.mp hc).1
  have hsearch : searchNum (parenNegate (s.data.filter (fun c => !isStrippedChar c))) = none :=
    searchNum_none _ (parenNegate_no_digit _ hfilter)
  simp only [clean_numeric_value]
  split
  · rfl
  · rw [hsearch]

-- ─── Claim theorems ───────────────────────────────────────────────────────

/-- C5: `calculate_netherlands_tax` returns `0` for every non-positive
income, `income × 0.19` for incomes in `(0, 200000]`, and
`200000 × 0.19 + (income − 200000) × 0.258` above `200000`; in particular
`tax 0 = 0`, `tax 200000 = 38000`, `tax 300000 = 63800`, `tax (−500) = 0`.
The function is a pure Lean function of its argument, so it is
deterministic by construction (floats idealised as exact rationals). -/
theorem claim5_tax_schedule :
    (∀ x : Rat, x ≤ 0 → calculate_netherlands_tax x = 0) ∧
    (∀ x : Rat, 0 < x → x ≤ 200000 → calculate_netherlands_tax x = x * (19 / 100)) ∧
    (∀ x : Rat, 200000 < x →
        calculate_netherlands_tax x =
          200000 * (19 / 100) + (x - 200000) * (258 / 1000)) ∧
    calculate_netherlands_tax 0 = 0 ∧
    calculate_netherlands_tax 200000 = 38000 ∧
    calculate_netherlands_tax 300000 = 63800 ∧
    calculate_netherlands_tax (-500) = 0 := by
  refine ⟨?_, ?_, ?_, ?_, ?_, ?_, ?_⟩
  · intro x hx
    simp [calculate_netherlands_tax, hx]
  · intro x hx1 hx2
    simp only [calculate_netherlands_tax]
    rw [if_neg (by linarith), if_pos hx2]
  · intro x hx
    simp only [calculate_netherlands_tax]
    rw [if_neg (by linarith), if_neg (by linarith)]
  · norm_num [calculate_netherlands_tax]
  · norm_num [calculate_netherlands_tax]
  · norm_num [calculate_netherlands_tax]
  · norm_num [calculate_netherlands_tax]

/-- Witness for C5: the hypotheses of the bracket clauses are satisfiable;
at income 100000 the 19% clause gives 19000. -/
theorem claim5_witness : calculate_netherlands_tax 100000 = 19000 := by
  have h := claim5_tax_schedule.2.1 100000 (by norm_num) (by norm_num)
  rw [h]
  norm_num

/-- C6: `clean_numeric_value` never raises and returns `0.0` for `""`,
`"0"` and `None`, `−1234.0` for `"(1,234)"`, `1234.5` for `"€1,234.50"`,
and `0.0` for any input with no numeric substring (no digit), such as
`"n/a"`.  Totality of the Lean function models the absence of exceptions. -/
theorem claim6_clean_numeric_value :
    clean_numeric_value Option.none = 0 ∧
    clean_numeric_value (some "") = 0 ∧
    clean_numeric_value (some "0") = 0 ∧
    clean_numeric_value (some "(1,234)") = -1234 ∧
    clean_numeric_value (some "€1,234.50") = 1234.5 ∧
    clean_numeric_value (some "n/a") = 0 ∧
    (∀ s : String, (∀ c ∈ s.data, c.isDigit = false) → clean_numeric_value (some s) = 0) := by
  refine ⟨rfl, rfl, rfl, by decide, ?_, by decide, clean_no_digit⟩
  have h : clean_numeric_value (some "€1,234.50") = Rat.divInt 123450 100 := by decide
  rw [h, Rat.divInt_eq_div]
  norm_num

/-- Witness for C6: the digit-free clause applies to the concrete input
`"n/a"`. -/
theorem claim6_witness : clean_numeric_value (some "n/a") = 0 :=
  claim6_clean_numeric_value.2.2.2.2.2.2 "n/a" (by decide)

/-- C1 counterexample: a model output in which only Q1 carries a non-empty
value is returned by the pipeline (extract + fill) exactly as produced:
Q2..Q4 are absent and Q1 lacks five of the six fields, so it is not the
case that every returned summary has all four quarters present with every
field a non-empty string. -/
theorem claim1_counterexample :
    extract_financial_data_with_ai
        (fun _ => some [("quarters",
          PyVal.dict [("Q1", PyVal.dict [("revenue", PyVal.str "500")])])])
        "" "" (.success "model output") =
      .ok [("quarters", PyVal.dict [("Q1", PyVal.dict [("revenue", PyVal.str "500")])])] ∧
    lookupKey [("Q1", PyVal.dict [("revenue", PyVal.str "500")])] "Q2" = Option.none ∧
    lookupKey [("revenue", PyVal.str "500")] "expenses" = Option.none :=
  ⟨rfl, rfl, rfl⟩

/-- C1 (amended): the returned summary is guaranteed to carry all four
quarters, each with all six fields present as strings, only on the backfill
branch — when no quarter of the model output holds a value outside
`("", "0", 0)`; the backfilled strings may be empty (they are empty exactly
when the overall value is zero or missing).  When some quarter is
populated, the quarters are passed through as the model produced them and
may lack quarters or fields. -/
theorem claim1_amended (data : PyDict) (qs : List (String × PyVal))
    (h₁ : getDefault data "quarters" (.dict []) = .dict qs)
    (h₂ : anyQuarterPopulated qs = some false) :
    ∃ d', fill_quarters_from_overall data = some d' ∧
      ∃ qs2, lookupKey d' "quarters" = some (.dict qs2) ∧
        ∀ qk ∈ ["Q1", "Q2", "Q3", "Q4"],
          ∃ entries, lookupKey qs2 qk = some (.dict entries) ∧
            ∀ fk ∈ quarterKeys, ∃ s, lookupKey entries fk = some (.str s) := by
  rcases hsix : overallSix data with ⟨r, e, d, de, n, t⟩
  refine ⟨_, fill_backfill data qs h₁ h₂ r e d de n t hsix, ?_⟩
  refine ⟨_, lookup_setKey_self _ _ _, ?_⟩
  intro qk hqk
  refine ⟨_, lookup_setKey_quarter_chain qs (backfillQuarter r e d de n t) qk hqk, ?_⟩
  intro fk hfk
  fin_cases hfk <;> exact ⟨_, rfl⟩

/-- Witness for C1 (amended): the empty model output takes the backfill
branch and the conclusion holds there. -/
theorem claim1_witness :
    ∃ d', fill_quarters_from_overall [] = some d' ∧
      ∃ qs2, lookupKey d' "quarters" = some (.dict qs2) ∧
        ∀ qk ∈ ["Q1", "Q2", "Q3", "Q4"],
          ∃ entries, lookupKey qs2 qk = some (.dict entries) ∧
            ∀ fk ∈ quarterKeys, ∃ s, lookupKey entries fk = some (.str s) :=
  claim1_amended [] [] rfl rfl

/-- C2 counterexample: with overall revenue "4000" and no quarters, the
backfill writes revenue "1000" but writes the empty string — not "0" — for
the missing overall fields (expenses etc.), whereas the claim requires
every missing overall field to be rendered as zero floor-divided by four,
i.e. the string "0". -/
theorem claim2_counterexample :
    fill_quarters_from_overall [("total_revenue", PyVal.str "4000")] =
      some [("total_revenue", PyVal.str "4000"),
        ("quarters", PyVal.dict
          [("Q1", PyVal.dict
             [("revenue", PyVal.str "1000"), ("expenses", PyVal.str ""),
              ("depreciation", PyVal.str ""), ("deductions", PyVal.str ""),
              ("net_taxable_income", PyVal.str ""), ("final_tax_owed", PyVal.str "")]),
           ("Q2", PyVal.dict
             [("revenue", PyVal.str "1000"), ("expenses", PyVal.str ""),
              ("depreciation", PyVal.str ""), ("deductions", PyVal.str ""),
              ("net_taxable_income", PyVal.str ""), ("final_tax_owed", PyVal.str "")]),
           ("Q3", PyVal.dict
             [("revenue", PyVal.str "1000"), ("expenses", PyVal.str ""),
              ("depreciation", PyVal.str ""), ("deductions", PyVal.str ""),
              ("net_taxable_income", PyVal.str ""), ("final_tax_owed", PyVal.str "")]),
           ("Q4", PyVal.dict
             [("revenue", PyVal.str "1000"), ("expenses", PyVal.str ""),
              ("depreciation", PyVal.str ""), ("deductions", PyVal.str ""),
              ("net_taxable_income", PyVal.str ""), ("final_tax_owed", PyVal.str "")])])] ∧
    PyVal.str "" ≠ PyVal.str "0" := by
  constructor
  · rfl
  · simp

/-- C2 (amended): when no quarter holds a value outside `("", "0", 0)`,
each of the six fields of each of Q1..Q4 is set to the overall field
floor-divided by four rendered as a string when the parsed overall value is
nonzero, and to the empty string when it is zero (missing or unparseable
overall fields are first treated as zero, one unparseable field zeroing all
six); and when at least one quarter holds such a value the dict is
returned completely unchanged. -/
theorem claim2_amended :
    (∀ (data : PyDict) (qs : List (String × PyVal)) (r e d de n t : Rat),
        getDefault data "quarters" (.dict []) = .dict qs →
        anyQuarterPopulated qs = some false →
        overallSix data = (r, e, d, de, n, t) →
        ∃ qs2, fill_quarters_from_overall data =
            some (setKey data "quarters" (.dict qs2)) ∧
          ∀ qk ∈ ["Q1", "Q2", "Q3", "Q4"],
            lookupKey qs2 qk = some (.dict
              [("revenue", .str (if r = 0 then "" else toString (⌊r / 4⌋ : Int))),
               ("expenses", .str (if e = 0 then "" else toString (⌊e / 4⌋ : Int))),
               ("depreciation", .str (if d = 0 then "" else toString (⌊d / 4⌋ : Int))),
               ("deductions", .str (if de = 0 then "" else toString (⌊de / 4⌋ : Int))),
               ("net_taxable_income", .str (if n = 0 then "" else toString (⌊n / 4⌋ : Int))),
               ("final_tax_owed", .str (if t = 0 then "" else toString (⌊t / 4⌋ : Int)))])) ∧
    (∀ (data : PyDict) (qs : List (String × PyVal)),
        getDefault data "quarters" (.dict []) = .dict qs →
        anyQuarterPopulated qs = some true →
        fill_quarters_from_overall data = some data) := by
  constructor
  · intro data qs r e d de n t h₁ h₂ hsix
    refine ⟨_, fill_backfill data qs h₁ h₂ r e d de n t hsix, ?_⟩
    intro qk hqk
    rw [lookup_setKey_quarter_chain qs (backfillQuarter r e d de n t) qk hqk]
    simp [backfillQuarter, divByFourStr_eq]
  · exact fun data qs h₁ h₂ => fill_passthrough data qs h₁ h₂

/-- Witness for C2 (amended): overall revenue "4000" with no quarters takes
the backfill branch (revenue floor-divides to "1000", the other five
overall values parse to zero). -/
theorem claim2_witness :
    ∃ qs2, fill_quarters_from_overall [("total_revenue", PyVal.str "4000")] =
        some (setKey [("total_revenue", PyVal.str "4000")] "quarters" (.dict qs2)) ∧
      ∀ qk ∈ ["Q1", "Q2", "Q3", "Q4"],
        lookupKey qs2 qk = some (.dict
          [("revenue", .str (if (4000 : Rat) = 0 then "" else toString (⌊(4000 : Rat) / 4⌋ : Int))),
           ("expenses", .str (if (0 : Rat) = 0 then "" else toString (⌊(0 : Rat) / 4⌋ : Int))),
           ("depreciation", .str (if (0 : Rat) = 0 then "" else toString (⌊(0 : Rat) / 4⌋ : Int))),
           ("deductions", .str (if (0 : Rat) = 0 then "" else toString (⌊(0 : Rat) / 4⌋ : Int))),
           ("net_taxable_income", .str (if (0 : Rat) = 0 then "" else toString (⌊(0 : Rat) / 4⌋ : Int))),
           ("final_tax_owed", .str (if (0 : Rat) = 0 then "" else toString (⌊(0 : Rat) / 4⌋ : Int)))]) :=
  claim2_amended.1 [("total_revenue", PyVal.str "4000")] [] 4000 0 0 0 0 0 rfl rfl rfl

/-- C8: `fill_quarters_from_overall` changes at most the "quarters" key:
whenever it returns, every other key maps to exactly the value it had in
the input dict. -/
theorem claim8_frame (data d' : PyDict)
    (h : fill_quarters_from_overall data = some d')
    (k : String) (hk : k ≠ "quarters") :
    lookupKey d' k = lookupKey data k := by
  unfold fill_quarters_from_overall at h
  split at h
  · split at h
    · cases h
    · injection h with h
      subst h
      rfl
    · simp only [Option.some.injEq] at h
      subst h
      exact lookup_setKey_ne data "quarters" k _ hk
  · cases h

/-- Witness for C8: on a dict with a "company_name" key and no quarters,
the backfill runs and "company_name" is untouched. -/
theorem claim8_witness :
    lookupKey [("company_name", PyVal.str "ACME"),
      ("quarters", PyVal.dict
        [("Q1", PyVal.dict
           [("revenue", PyVal.str ""), ("expenses", PyVal.str ""),
            ("depreciation", PyVal.str ""), ("deductions", PyVal.str ""),
            ("net_taxable_income", PyVal.str ""), ("final_tax_owed", PyVal.str "")]),
         ("Q2", PyVal.dict
           [("revenue", PyVal.str ""), ("expenses", PyVal.str ""),
            ("depreciation", PyVal.str ""), ("deductions", PyVal.str ""),
            ("net_taxable_income", PyVal.str ""), ("final_tax_owed", PyVal.str "")]),
         ("Q3", PyVal.dict
           [("revenue", PyVal.str ""), ("expenses", PyVal.str ""),
            ("depreciation", PyVal.str ""), ("deductions", PyVal.str ""),
            ("net_taxable_income", PyVal.str ""), ("final_tax_owed", PyVal.str "")]),
         ("Q4", PyVal.dict
           [("revenue", PyVal.str ""), ("expenses", PyVal.str ""),
            ("depreciation", PyVal.str ""), ("deductions", PyVal.str ""),
            ("net_taxable_income", PyVal.str ""), ("final_tax_owed", PyVal.str "")])])]
      "company_name" =
    lookupKey [("company_name", PyVal.str "ACME")] "company_name" :=
  claim8_frame [("company_name", PyVal.str "ACME")] _ rfl "company_name" (by decide)

/-- C9: inside `fill_quarters_from_overall`, the six float conversions share
one `try`; if any one of the six overall fields fails to convert, all six
are reset to zero, so every backfilled quarter field becomes the empty
string — including fields whose overall values were individually
parseable. -/
theorem claim9_one_bad_field_zeroes_all (data : PyDict) (qs : List (String × PyVal))
    (h₁ : getDefault data "quarters" (.dict []) = .dict qs)
    (h₂ : anyQuarterPopulated qs = some false)
    (k : String) (hk : k ∈ overallKeys) (hfail : overallField data k = none) :
    ∃ qs2, fill_quarters_from_overall data = some (setKey data "quarters" (.dict qs2)) ∧
      ∀ qk ∈ ["Q1", "Q2", "Q3", "Q4"],
        lookupKey qs2 qk = some (.dict
          [("revenue", .str ""), ("expenses", .str ""), ("depreciation", .str ""),
           ("deductions", .str ""), ("net_taxable_income", .str ""),
           ("final_tax_owed", .str "")]) := by
  have hsix := overallSix_of_fail data k hk hfail
  refine ⟨_, fill_backfill data qs h₁ h₂ 0 0 0 0 0 0 hsix, ?_⟩
  intro qk hqk
  rw [lookup_setKey_quarter_chain qs (backfillQuarter 0 0 0 0 0 0) qk hqk]
  rfl

/-- Witness for C9: total_revenue "Not found" does not convert, so even
though total_expenses "100" is parseable, every backfilled field is the
empty string. -/
theorem claim9_witness :
    ∃ qs2, fill_quarters_from_overall
        [("total_revenue", PyVal.str "Not found"), ("total_expenses", PyVal.str "100")] =
      some (setKey [("total_revenue", PyVal.str "Not found"),
        ("total_expenses", PyVal.str "100")] "quarters" (.dict qs2)) ∧
      ∀ qk ∈ ["Q1", "Q2", "Q3", "Q4"],
        lookupKey qs2 qk = some (.dict
          [("revenue", .str ""), ("expenses", .str ""), ("depreciation", .str ""),
           ("deductions", .str ""), ("net_taxable_income", .str ""),
           ("final_tax_owed", .str "")]) :=
  claim9_one_bad_field_zeroes_all
    [("total_revenue", PyVal.str "Not found"), ("total_expenses", PyVal.str "100")]
    [] rfl rfl "total_revenue" (by decide) rfl

theorem strAppend_assoc (a b c : String) : a ++ b ++ c = a ++ (b ++ c) := by
  obtain ⟨as⟩ := a
  obtain ⟨bs⟩ := b
  obtain ⟨cs⟩ := c
  show String.mk (as ++ bs ++ cs) = String.mk (as ++ (bs ++ cs))
  rw [List.append_assoc]

theorem errWrap (pre m : String) :
    "Error in AI extraction: " ++ strHTTP ⟨500, pre ++ m⟩ =
      "Error in AI extraction: 500: " ++ pre ++ m := by
  show "Error in AI extraction: " ++ (toString (500 : Nat) ++ ": " ++ (pre ++ m)) =
    "Error in AI extraction: 500: " ++ pre ++ m
  rw [show toString (500 : Nat) = "500" from rfl, ← strAppend_assoc, ← strAppend_assoc,
    show "Error in AI extraction: " ++ ("500" ++ ": ") = "Error in AI extraction: 500: "
      from rfl]

/-- C3 counterexample: on an authentication failure — and likewise on an
unparseable model response — `extract_financial_data_with_ai` raises an
`HTTPException` with status 500 carrying the failure text; it does not
return a default-filled FinancialSummary, contrary to the claim. -/
theorem claim3_counterexample :
    extract_financial_data_with_ai (fun _ => none) "" "" (.authError "invalid api key") =
      .error ⟨500,
        "Error in AI extraction: 500: OpenAI API Authentication Error: invalid api key"⟩ ∧
    extract_financial_data_with_ai (fun _ => none) "" "" (.success "not json") =
      .error ⟨500, "Error in AI extraction: 500: Unexpected OpenAI Error: Expecting value"⟩ :=
  ⟨rfl, rfl⟩

/-- C3 (amended): whenever the model call fails (authentication, API, rate
limit or any other error) or its response does not parse as JSON,
`extract_financial_data_with_ai` raises an `HTTPException` with status 500
whose detail wraps the failure description twice ("Error in AI extraction:
500: ..."); it never returns a default-filled summary and never returns a
partial payload — the failure is surfaced as this formatted error. -/
theorem claim3_amended :
    (∀ (p : String → Option PyDict) (t td m : String),
        extract_financial_data_with_ai p t td (.authError m) =
          .error ⟨500, "Error in AI extraction: 500: OpenAI API Authentication Error: " ++ m⟩) ∧
    (∀ (p : String → Option PyDict) (t td m : String),
        extract_financial_data_with_ai p t td (.apiError m) =
          .error ⟨500, "Error in AI extraction: 500: OpenAI API Error: " ++ m⟩) ∧
    (∀ (p : String → Option PyDict) (t td m : String),
        extract_financial_data_with_ai p t td (.rateLimitError m) =
          .error ⟨500, "Error in AI extraction: 500: OpenAI Rate Limit Error: " ++ m⟩) ∧
    (∀ (p : String → Option PyDict) (t td m : String),
        extract_financial_data_with_ai p t td (.otherError m) =
          .error ⟨500, "Error in AI extraction: 500: Unexpected OpenAI Error: " ++ m⟩) ∧
    (∀ (p : String → Option PyDict) (t td c : String),
        p (stripCodeFence (String.mk (trimChars c.data))) = none →
        extract_financial_data_with_ai p t td (.success c) =
          .error ⟨500,
            "Error in AI extraction: 500: Unexpected OpenAI Error: " ++ jsonDecodeErrorMsg⟩) := by
  refine ⟨fun p t td m => ?_, fun p t td m => ?_, fun p t td m => ?_,
    fun p t td m => ?_, fun p t td c hp => ?_⟩
  · rw [show extract_financial_data_with_ai p t td (.authError m) =
        Except.error ⟨500, "Error in AI extraction: " ++
          strHTTP ⟨500, "OpenAI API Authentication Error: " ++ m⟩⟩ from rfl, errWrap]
    rfl
  · rw [show extract_financial_data_with_ai p t td (.apiError m) =
        Except.error ⟨500, "Error in AI extraction: " ++
          strHTTP ⟨500, "OpenAI API Error: " ++ m⟩⟩ from rfl, errWrap]
    rfl
  · rw [show extract_financial_data_with_ai p t td (.rateLimitError m) =
        Except.error ⟨500, "Error in AI extraction: " ++
          strHTTP ⟨500, "OpenAI Rate Limit Error: " ++ m⟩⟩ from rfl, errWrap]
    rfl
  · rw [show extract_financial_data_with_ai p t td (.otherError m) =
        Except.error ⟨500, "Error in AI extraction: " ++
          strHTTP ⟨500, "Unexpected OpenAI Error: " ++ m⟩⟩ from rfl, errWrap]
    rfl
  · simp only [extract_financial_data_with_ai, hp]
    rfl

/-- Witness for C3 (amended): the parse-failure clause applies to the
concrete unparseable response "oops". -/
theorem claim3_witness :
    extract_financial_data_with_ai (fun _ => none) "x" "y" (.success "oops") =
      .error ⟨500,
        "Error in AI extraction: 500: Unexpected OpenAI Error: " ++ jsonDecodeErrorMsg⟩ :=
  claim3_amended.2.2.2.2 (fun _ => none) "x" "y" "oops" rfl

/-- C4 counterexample: a CSV holding only a header row (no keyword rows)
does not produce the 400 NoReadableContent error — the full-table text is
non-empty, so the endpoint proceeds to the model call, whose outcome (here
an authentication failure) determines the response. -/
theorem claim4_counterexample :
    extract_endpoint_csv [[some "Name", some "Value"]] (fun _ => none) (.authError "k") =
      .error ⟨500, "Error in AI extraction: 500: OpenAI API Authentication Error: k"⟩ ∧
    csvProse [[some "Name", some "Value"]] = "" ∧
    csvTables [[some "Name", some "Value"]] ≠ "" := by
  refine ⟨rfl, rfl, ?_⟩
  decide

/-- C4 (amended): for every CSV whose parse yields at least one row, the
tables text (the rendering of the full table) is non-empty, so the
`NoReadableContent` check cannot fire on the CSV path; the endpoint always
proceeds to invoke the model, even when no row matches any keyword and the
prose text is empty. -/
theorem claim4_amended (rows : List (List Cell)) (h : rows ≠ [])
    (p : String → Option PyDict) (o : ModelOutcome) :
    csvTables rows ≠ "" ∧
    extract_endpoint_csv rows p o =
      extract_financial_data_with_ai p (csvProse rows) (csvTables rows) o := by
  have ht := csvTables_ne_empty rows h
  refine ⟨ht, ?_⟩
  unfold extract_endpoint_csv
  rw [if_neg]
  intro hcontra
  exact ht hcontra.2

/-- Witness for C4 (amended): the header-only CSV of the spec example. -/
theorem claim4_witness :
    csvTables [[some "Name", some "Value"]] ≠ "" ∧
    extract_endpoint_csv [[some "Name", some "Value"]] (fun _ => none) (.authError "k") =
      extract_financial_data_with_ai (fun _ => none)
        (csvProse [[some "Name", some "Value"]])
        (csvTables [[some "Name", some "Value"]]) (.authError "k") :=
  claim4_amended [[some "Name", some "Value"]] (by decide) (fun _ => none) (.authError "k")

/-- C7: the prose text of the CSV path consists exactly of the rows (cells
joined, nulls dropped) whose joined string contains one of the fixed
keywords case-insensitively — a matching row's string appears among the
prose lines and every prose line comes from a matching row — while the
tables text contains a rendering of every row regardless of the filter.
On the spec's example only "Revenue 1000" survives the filter. -/
theorem claim7_csv_filter :
    (∀ (rows : List (List Cell)) (row : List Cell), row ∈ rows → rowMatches row = true →
        rowStrChars row ∈ (rows.filter rowMatches).map rowStrChars) ∧
    (∀ (rows : List (List Cell)) (line : List Char),
        line ∈ (rows.filter rowMatches).map rowStrChars →
        ∃ row ∈ rows, rowMatches row = true ∧ rowStrChars row = line) ∧
    (∀ rows : List (List Cell), csvProse rows =
        String.mk (joinWith ['\n'] ((rows.filter rowMatches).map rowStrChars))) ∧
    (∀ (rows : List (List Cell)) (row : List Cell), row ∈ rows →
        containsSub (renderRowChars row) (csvTablesChars rows) = true) ∧
    csvProse [[some "Name", some "Value"], [some "Revenue", some "1000"],
      [some "Unrelated", some "5"]] = "Revenue 1000" ∧
    rowMatches [some "Name", some "Value"] = false ∧
    rowMatches [some "Revenue", some "1000"] = true ∧
    rowMatches [some "Unrelated", some "5"] = false := by
  refine ⟨?_, ?_, fun rows => rfl, ?_, by decide, by decide, by decide, by decide⟩
  · intro rows row hr hm
    exact List.mem_map_of_mem _ (List.mem_filter.mpr ⟨hr, hm⟩)
  · intro rows line hl
    rcases List.mem_map.mp hl with ⟨row, hrow, rfl⟩
    rcases List.mem_filter.mp hrow with ⟨hr, hm⟩
    exact ⟨row, hr, hm, rfl⟩
  · intro rows row hr
    unfold csvTablesChars
    exact containsSub_joinWith _ _ _ (List.mem_cons_of_mem _ (List.mem_map_of_mem _ hr))

/-- Witness for C7: on the spec's example, the matching row's string is
among the prose lines and the non-matching header row still appears in the
tables text. -/
theorem claim7_witness :
    rowStrChars [some "Revenue", some "1000"] ∈
      (([[some "Name", some "Value"], [some "Revenue", some "1000"],
        [some "Unrelated", some "5"]].filter rowMatches).map rowStrChars) ∧
    containsSub (renderRowChars [some "Name", some "Value"])
      (csvTablesChars [[some "Name", some "Value"], [some "Revenue", some "1000"],
        [some "Unrelated", some "5"]]) = true :=
  ⟨claim7_csv_filter.1 _ _ (by simp) (by decide),
   claim7_csv_filter.2.2.2.1 _ _ (by simp)⟩

/-- C10: `create_results_table` raises (`none`) exactly when one of the six
numeric fields is missing; when all six are present it returns the table,
whose first two rows are Company Name and Country drawn with a
"Not found" default (so their absence never raises); unparseable amounts
render as "€0"; and the output is a function of the input mapping alone. -/
theorem claim10_results_table :
    (∀ (fd : PyDict) (k : String), k ∈ overallKeys → lookupKey fd k = Option.none →
        create_results_table fd = Option.none) ∧
    (∀ fd : PyDict, (∀ k ∈ overallKeys, (lookupKey fd k).isSome = true) →
        ∃ rest, create_results_table fd = some
          (("Company Name", getDefault fd "company_name" (.str "Not found")) ::
           ("Country", getDefault fd "country" (.str "Not found")) :: rest)) ∧
    (∀ fd : PyDict, lookupKey fd "company_name" = Option.none →
        getDefault fd "company_name" (.str "Not found") = .str "Not found") ∧
    (∀ v : PyVal, pyFloat v = Option.none → format_currency v = "€0") ∧
    (∀ fd₁ fd₂ : PyDict, fd₁ = fd₂ →
        create_results_table fd₁ = create_results_table fd₂) := by
  refine ⟨?_, ?_, ?_, ?_, fun fd₁ fd₂ h => congrArg _ h⟩
  · intro fd k hk hnone
    unfold create_results_table
    rw [if_neg]
    intro hall
    have := List.all_eq_true.mp hall k hk
    rw [hnone] at this
    simp at this
  · intro fd hall
    unfold create_results_table
    rw [if_pos (List.all_eq_true.mpr hall)]
    exact ⟨_, rfl⟩
  · intro fd h
    unfold getDefault
    rw [h]
    rfl
  · intro v hv
    unfold format_currency
    rw [hv]

/-- Witness for C10: the empty mapping is missing total_revenue, so the
table raises; a `None` amount does not parse and renders as "€0". -/
theorem claim10_witness :
    create_results_table [] = Option.none ∧ format_currency PyVal.pynone = "€0" :=
  ⟨claim10_results_table.1 [] "total_revenue" (by decide) rfl,
   claim10_results_table.2.2.2.1 PyVal.pynone rfl⟩
